import Mathlib

/-!
Verification of the fixed-income discounting module (`descuento.py`).

The module has two entry points:

* `interpolar_factor_descuento`: given a query date, a discount curve
  (a list of (date, discount factor) rows) and a valuation date, returns a
  discount factor via exact match, log-linear interpolation, or flat
  extrapolation at the boundaries.
* `calcular_valor_presente`: given a cash-flow schedule, an optional
  valuation date, a method selector and method-specific parameters, sums
  the discounted future flows, validating required parameters first.

Modelling conventions of this development:

* Calendar dates are embedded as integer day ordinals (`ℤ`).  Python
  subtracts two `date` values to a `timedelta` whose `.days` field is the
  exact difference of the day ordinals, and compares dates by ordinal, so
  every date operation the source performs factors through the ordinal.
  `Fecha.toOrdinal` maps a calendar (year, month, day) triple to its
  ordinal exactly as `datetime.date.toordinal` does, so concrete calendar
  scenarios can be evaluated.
* Floating-point numbers are embedded as exact reals; `np.log`, `np.exp`
  and `**` become `Real.log`, `Real.exp` and `Real.rpow`.
* The pandas curve DataFrame with columns (Date, Discount) becomes a
  `List (ℤ × ℝ)`; boolean-mask row selection becomes `List.filter`,
  `.iloc[0]` becomes `List.headI`, `.iloc[-1]` becomes `List.getLastD`.
* The `MetodoDescuento` enum is embedded by the values of its members
  (the strings "curva" and "yield"), so that the defensive
  unrecognized-method branch of the source stays reachable, as it is in
  Python where the parameter is not checked to be an enum member.
* `Optional` parameters become `Option`; `raise ValueError(msg)` becomes
  `Except.error msg`, and a normal return becomes `Except.ok`.
-/

/-- Leap-year test of the proleptic Gregorian calendar, as used by
Python `datetime`. -/
def esBisiesto (y : Nat) : Bool :=
  y % 4 == 0 && (y % 100 != 0 || y % 400 == 0)

/-- Days in the months strictly before month `m` of a non-leap year. -/
def diasPreviosMes (m : Nat) : Nat :=
  match m with
  | 1 => 0
  | 2 => 31
  | 3 => 59
  | 4 => 90
  | 5 => 120
  | 6 => 151
  | 7 => 181
  | 8 => 212
  | 9 => 243
  | 10 => 273
  | 11 => 304
  | 12 => 334
  | _ => 0

/-- Calendar date: a (year, month, day) triple of the proleptic Gregorian
calendar, as Python `datetime.date`. -/
structure Fecha where
  year : Nat
  month : Nat
  day : Nat

/-- Day ordinal of a calendar date, with day 1 = 0001-01-01, computed by
the same formula as CPython `datetime.date.toordinal`.  The difference of
two ordinals is exactly the `.days` field of the `timedelta` obtained by
subtracting the two Python dates. -/
def Fecha.toOrdinal (f : Fecha) : ℤ :=
  ((365 * (f.year - 1) + (f.year - 1) / 4 - (f.year - 1) / 100
      + (f.year - 1) / 400
      + diasPreviosMes f.month
      + (if esBisiesto f.year ∧ 3 ≤ f.month then 1 else 0)
      + f.day : Nat) : ℤ)

/-- Discount curve row list: the (Date, Discount) columns of the pandas
DataFrame `df_curva`, dates as day ordinals. -/
abbrev Curva := List (ℤ × ℝ)

/-- Curve rows whose date equals the query date exactly: the local
`coincidencia = df_curva[df_curva['Date'] == fecha_flujo_dt]` of the
source. -/
def coincidencia (df_curva : Curva) (fecha_flujo : ℤ) : Curva :=
  df_curva.filter (fun p => decide (p.1 = fecha_flujo))

/-- Curve rows strictly before the query date: the local
`puntos_anteriores = df_curva[df_curva['Date'] < fecha_flujo_dt]` of the
source. -/
def puntos_anteriores (df_curva : Curva) (fecha_flujo : ℤ) : Curva :=
  df_curva.filter (fun p => decide (p.1 < fecha_flujo))

/-- Curve rows strictly after the query date: the local
`puntos_posteriores = df_curva[df_curva['Date'] > fecha_flujo_dt]` of the
source. -/
def puntos_posteriores (df_curva : Curva) (fecha_flujo : ℤ) : Curva :=
  df_curva.filter (fun p => decide (fecha_flujo < p.1))

/-- Log-linear interpolation of a discount factor, translated from
`interpolar_factor_descuento` in `descuento.py`:

1. exact match: if some curve row has the query date, return its factor;
2. if the query date precedes every curve date, return the first factor;
3. if it follows every curve date, return the last factor;
4. otherwise interpolate log-linearly between the closest row strictly
   before and the closest row strictly after, with year-fractions
   `T = (date - fecha_valoracion).days / 365.0`. -/
noncomputable def interpolar_factor_descuento
    (fecha_flujo : ℤ) (df_curva : Curva) (fecha_valoracion : ℤ) : ℝ :=
  if ¬ (coincidencia df_curva fecha_flujo).isEmpty then
    (coincidencia df_curva fecha_flujo).headI.2
  else if (puntos_anteriores df_curva fecha_flujo).isEmpty then
    df_curva.headI.2
  else if (puntos_posteriores df_curva fecha_flujo).isEmpty then
    (df_curva.getLastD (0, 0)).2
  else
    let punto_1 := (puntos_anteriores df_curva fecha_flujo).getLastD (0, 0)
    let punto_2 := (puntos_posteriores df_curva fecha_flujo).headI
    let T1 := ((punto_1.1 - fecha_valoracion : ℤ) : ℝ) / 365
    let T2 := ((punto_2.1 - fecha_valoracion : ℤ) : ℝ) / 365
    let T_flujo := ((fecha_flujo - fecha_valoracion : ℤ) : ℝ) / 365
    Real.exp (Real.log punto_1.2
      + (Real.log punto_2.2 - Real.log punto_1.2) * (T_flujo - T1) / (T2 - T1))

/-- Method selector, embedded by the string values of the Python enum
members so the defensive unrecognized-method branch stays reachable. -/
abbrev MetodoDescuento := String

/-- Value of the enum member `MetodoDescuento.CURVA`. -/
def MetodoDescuento.CURVA : MetodoDescuento := "curva"

/-- Value of the enum member `MetodoDescuento.YIELD`. -/
def MetodoDescuento.YIELD : MetodoDescuento := "yield"

/-- Cash-flow schedule: either (date, amount) rows (the source flag
`flujos_como_fechas=True`) or (year-fraction, amount) rows
(`flujos_como_fechas=False`). -/
inductive Flujos where
  | fechas (l : List (ℤ × ℝ))
  | tiempos (l : List (ℝ × ℝ))

/-- Present value of a cash-flow schedule, translated from
`calcular_valor_presente` in `descuento.py`.  Validation happens before
any flow is processed; the loops accumulate from `0.0` in list order,
skipping past flows. -/
noncomputable def calcular_valor_presente
    (flujos_caja : Flujos)
    (fecha_valoracion : Option ℤ)
    (metodo : MetodoDescuento)
    (df_curva : Option Curva)
    (spread_credito : ℝ)
    (yield_anual : Option ℝ)
    (frecuencia : ℤ) : Except String ℝ :=
  if metodo = MetodoDescuento.CURVA then
    match df_curva with
    | none => .error "Se requiere df_curva para el metodo CURVA"
    | some curva =>
      match flujos_caja with
      | .tiempos _ => .error "El metodo CURVA requiere flujos_como_fechas=True"
      | .fechas flujos =>
        match fecha_valoracion with
        | none => .error "Se requiere fecha_valoracion para el metodo CURVA"
        | some fv =>
          .ok (flujos.foldl (fun valor_presente p =>
            if p.1 < fv then valor_presente
            else valor_presente + p.2 *
              (interpolar_factor_descuento p.1 curva fv *
                Real.exp (-spread_credito * (((p.1 - fv : ℤ) : ℝ) / 365)))) 0)
  else if metodo = MetodoDescuento.YIELD then
    match yield_anual with
    | none => .error "Se requiere yield_anual para el metodo YIELD"
    | some y =>
      match flujos_caja with
      | .fechas flujos =>
        match fecha_valoracion with
        | none => .error "Se requiere fecha_valoracion cuando flujos_como_fechas=True"
        | some fv =>
          .ok (flujos.foldl (fun valor_presente p =>
            if p.1 < fv then valor_presente
            else valor_presente + p.2 /
              Real.rpow (1 + y / (frecuencia : ℝ))
                ((((p.1 - fv : ℤ) : ℝ) / 365) * (frecuencia : ℝ))) 0)
      | .tiempos flujos =>
        .ok (flujos.foldl (fun valor_presente p =>
          if p.1 ≤ 0 then valor_presente
          else valor_presente + p.2 /
            Real.rpow (1 + y / (frecuencia : ℝ)) (p.1 * (frecuencia : ℝ))) 0)
  else
    .error ("Metodo de descuento no reconocido: " ++ metodo)

/-! ### Helper lemmas about lists and sorted curves -/

/-- Entries of a pairwise-related list relate across any increasing pair
of indices. -/
theorem pairwise_rel_get {α : Type} {R : α → α → Prop} {l : List α}
    (h : l.Pairwise R) {i j : ℕ} (hi : i < l.length) (hj : j < l.length)
    (hij : i < j) : R (l.get ⟨i, hi⟩) (l.get ⟨j, hj⟩) :=
  List.pairwise_iff_get.mp h ⟨i, hi⟩ ⟨j, hj⟩ hij

/-- The default-valued head of a nonempty list is a member. -/
theorem headI_mem {α : Type} [Inhabited α] {l : List α} (h : l ≠ []) :
    l.headI ∈ l := by
  cases l with
  | nil => exact absurd rfl h
  | cons a t => exact List.mem_cons_self a t

/-- The default-valued last element of a nonempty list is a member. -/
theorem getLastD_mem {α : Type} (l : List α) (d : α) (h : l ≠ []) :
    l.getLastD d ∈ l := by
  induction l generalizing d with
  | nil => exact absurd rfl h
  | cons a t ih =>
    rw [List.getLastD_cons]
    cases t with
    | nil => simp [List.getLastD]
    | cons b u => exact List.mem_cons_of_mem a (ih b (by simp))

/-- On a curve sorted strictly by date, when the query lies strictly
between the entries at indices `i` and `i+1`, the three row filters of
the interpolator evaluate to the prefix, the suffix, and the empty
list. -/
theorem filter_split_of_sorted (l : Curva) (q : ℤ)
    (hs : l.Pairwise (fun a b => a.1 < b.1)) (i : ℕ) (hi : i + 1 < l.length)
    (h1 : (l.get ⟨i, Nat.lt_of_succ_lt hi⟩).1 < q)
    (h2 : q < (l.get ⟨i + 1, hi⟩).1) :
    puntos_anteriores l q = l.take (i + 1) ∧
    puntos_posteriores l q = l.drop (i + 1) ∧
    coincidencia l q = [] := by
  have hmem1 : ∀ x ∈ l.take (i + 1), x.1 < q := by
    intro x hx
    rcases List.mem_iff_get.mp hx with ⟨⟨j, hj⟩, rfl⟩
    have hlt := hj
    rw [List.length_take] at hlt
    have hj1 : j < i + 1 := lt_of_lt_of_le hlt (min_le_left _ _)
    have hj2 : j < l.length := lt_of_lt_of_le hlt (min_le_right _ _)
    have hget : (l.take (i + 1)).get ⟨j, hj⟩ = l.get ⟨j, hj2⟩ := List.get_take' l
    rw [hget]
    rcases lt_or_eq_of_le (Nat.lt_succ_iff.mp hj1) with hji | hji
    · exact lt_trans (pairwise_rel_get hs hj2 (Nat.lt_of_succ_lt hi) hji) h1
    · subst hji
      exact h1
  have hmem2 : ∀ x ∈ l.drop (i + 1), q < x.1 := by
    intro x hx
    rcases List.mem_iff_get.mp hx with ⟨⟨j, hj⟩, rfl⟩
    have hj2 : i + 1 + j < l.length := by
      rw [List.length_drop] at hj
      omega
    have hget : (l.drop (i + 1)).get ⟨j, hj⟩ = l.get ⟨i + 1 + j, hj2⟩ := by
      rw [List.get_drop']
    rw [hget]
    cases j with
    | zero => exact h2
    | succ k =>
      exact lt_trans h2 (pairwise_rel_get hs hi hj2 (by omega))
  have hsplit := List.take_append_drop (i + 1) l
  refine ⟨?_, ?_, ?_⟩
  · show l.filter (fun p => decide (p.1 < q)) = _
    conv_lhs => rw [← hsplit]
    rw [List.filter_append,
      List.filter_eq_self.mpr
        (fun x hx => by simp only [decide_eq_true_eq]; exact hmem1 x hx),
      List.filter_eq_nil_iff.mpr
        (fun x hx => by
          simp only [decide_eq_true_eq, not_lt]
          exact (hmem2 x hx).le),
      List.append_nil]
  · show l.filter (fun p => decide (q < p.1)) = _
    conv_lhs => rw [← hsplit]
    rw [List.filter_append,
      List.filter_eq_nil_iff.mpr
        (fun x hx => by
          simp only [decide_eq_true_eq, not_lt]
          exact (hmem1 x hx).le),
      List.filter_eq_self.mpr
        (fun x hx => by simp only [decide_eq_true_eq]; exact hmem2 x hx),
      List.nil_append]
  · show l.filter (fun p => decide (p.1 = q)) = _
    conv_lhs => rw [← hsplit]
    rw [List.filter_append,
      List.filter_eq_nil_iff.mpr
        (fun x hx => by
          simp only [decide_eq_true_eq]
          exact ne_of_lt (hmem1 x hx)),
      List.filter_eq_nil_iff.mpr
        (fun x hx => by
          simp only [decide_eq_true_eq]
          exact ne_of_gt (hmem2 x hx)),
      List.nil_append]

/-- The last element of a prefix of length `i+1` is the entry at index
`i`. -/
theorem getLastD_take (l : Curva) (i : ℕ) (hi : i < l.length) (d : ℤ × ℝ) :
    (l.take (i + 1)).getLastD d = l.get ⟨i, hi⟩ := by
  rw [List.take_succ]
  have hsome : l[i]? = some l[i] := List.getElem?_eq_getElem hi
  rw [hsome]
  exact List.getLastD_concat _ _ _

/-- The head of the suffix starting at index `n` is the entry at index
`n`. -/
theorem headI_drop (l : Curva) (n : ℕ) (hn : n < l.length) :
    (l.drop n).headI = l.get ⟨n, hn⟩ := by
  rw [List.drop_eq_getElem_cons hn]
  rfl

/-- Reduction of the interpolator on the interior branch: when the query
lies strictly between the curve entries at indices `i` and `i+1` of a
strictly date-sorted curve, the result is the log-linear interpolant
between those two rows. -/
theorem interpolar_interior (l : Curva) (q v : ℤ)
    (hs : l.Pairwise (fun a b => a.1 < b.1)) (i : ℕ) (hi : i + 1 < l.length)
    (h1 : (l.get ⟨i, Nat.lt_of_succ_lt hi⟩).1 < q)
    (h2 : q < (l.get ⟨i + 1, hi⟩).1) :
    interpolar_factor_descuento q l v =
      Real.exp (Real.log (l.get ⟨i, Nat.lt_of_succ_lt hi⟩).2
        + (Real.log (l.get ⟨i + 1, hi⟩).2
            - Real.log (l.get ⟨i, Nat.lt_of_succ_lt hi⟩).2)
          * (((q - v : ℤ) : ℝ) / 365
             - (((l.get ⟨i, Nat.lt_of_succ_lt hi⟩).1 - v : ℤ) : ℝ) / 365)
          / ((((l.get ⟨i + 1, hi⟩).1 - v : ℤ) : ℝ) / 365
             - (((l.get ⟨i, Nat.lt_of_succ_lt hi⟩).1 - v : ℤ) : ℝ) / 365)) := by
  obtain ⟨hant, hpost, hex⟩ := filter_split_of_sorted l q hs i hi h1 h2
  have htake_ne : l.take (i + 1) ≠ [] :=
    List.length_pos.mp (by rw [List.length_take]; omega)
  have hdrop_ne : l.drop (i + 1) ≠ [] :=
    List.length_pos.mp (by rw [List.length_drop]; omega)
  simp only [interpolar_factor_descuento, hant, hpost, hex]
  rw [if_neg (by simp)]
  rw [if_neg (by simp [List.isEmpty_iff, htake_ne])]
  rw [if_neg (by simp [List.isEmpty_iff, hdrop_ne])]
  rw [getLastD_take l i (Nat.lt_of_succ_lt hi), headI_drop l (i + 1) hi]

/-- Differences of Actual/365 year-fractions do not depend on the common
origin. -/
theorem div365_sub (x y v : ℤ) :
    ((x - v : ℤ) : ℝ) / 365 - ((y - v : ℤ) : ℝ) / 365 = ((x - y : ℤ) : ℝ) / 365 := by
  push_cast
  ring

/-- The common factor 365 cancels between numerator and denominator of
the interpolation weight, including the degenerate zero denominator. -/
theorem weight_cancel (A X Y : ℝ) : A * (X / 365) / (Y / 365) = A * X / Y := by
  rcases eq_or_ne Y 0 with h0 | h0
  · simp [h0]
  · field_simp

/-- The log-linear interpolant is invariant under changing the common
origin of the three year-fractions. -/
theorem loglinear_indep (L1 L2 : ℝ) (a b c v w : ℤ) :
    L1 + (L2 - L1) * (((c - v : ℤ) : ℝ) / 365 - ((a - v : ℤ) : ℝ) / 365)
        / (((b - v : ℤ) : ℝ) / 365 - ((a - v : ℤ) : ℝ) / 365)
      = L1 + (L2 - L1) * (((c - w : ℤ) : ℝ) / 365 - ((a - w : ℤ) : ℝ) / 365)
        / (((b - w : ℤ) : ℝ) / 365 - ((a - w : ℤ) : ℝ) / 365) := by
  rw [div365_sub c a v, div365_sub b a v, div365_sub c a w, div365_sub b a w]

/-- A convex combination with weight strictly inside the unit interval
lies strictly between its endpoints (decreasing case). -/
theorem loglinear_bounds (L1 L2 Dq D : ℝ) (hL : L2 < L1) (h0 : 0 < Dq)
    (hD : Dq < D) :
    L2 < L1 + (L2 - L1) * Dq / D ∧ L1 + (L2 - L1) * Dq / D < L1 := by
  have hD0 : 0 < D := h0.trans hD
  have hw0 : 0 < Dq / D := div_pos h0 hD0
  have hw1 : Dq / D < 1 := (div_lt_one hD0).mpr hD
  constructor
  · rw [mul_div_assoc]
    nlinarith [mul_pos (sub_pos.mpr hL) (sub_pos.mpr hw1)]
  · rw [mul_div_assoc]
    nlinarith [mul_pos (sub_pos.mpr hL) hw0]

/-- The log-linear interpolant with decreasing endpoints is strictly
decreasing in the interpolation weight numerator. -/
theorem loglinear_mono (L1 L2 D1 D2 D : ℝ) (hL : L2 < L1) (hD : 0 < D)
    (h12 : D1 < D2) :
    L1 + (L2 - L1) * D2 / D < L1 + (L2 - L1) * D1 / D := by
  have hw : D1 / D < D2 / D := (div_lt_div_right hD).mpr h12
  rw [mul_div_assoc, mul_div_assoc]
  have hneg := mul_lt_mul_of_neg_left hw (sub_neg.mpr hL)
  linarith

/-- On a strictly date-sorted curve, the exact-match filter at the date
of the entry at index `i` selects exactly that entry. -/
theorem coincidencia_of_sorted (l : Curva) (q : ℤ)
    (hs : l.Pairwise (fun a b => a.1 < b.1)) (i : ℕ) (hi : i < l.length)
    (hq : (l.get ⟨i, hi⟩).1 = q) :
    coincidencia l q = [l.get ⟨i, hi⟩] := by
  have hmem1 : ∀ x ∈ l.take i, x.1 < q := by
    intro x hx
    rcases List.mem_iff_get.mp hx with ⟨⟨j, hj⟩, rfl⟩
    have hlt := hj
    rw [List.length_take] at hlt
    have hj1 : j < i := lt_of_lt_of_le hlt (min_le_left _ _)
    have hj2 : j < l.length := lt_of_lt_of_le hlt (min_le_right _ _)
    have hget : (l.take i).get ⟨j, hj⟩ = l.get ⟨j, hj2⟩ := List.get_take' l
    rw [hget]
    exact hq ▸ pairwise_rel_get hs hj2 hi hj1
  have hmem2 : ∀ x ∈ l.drop (i + 1), q < x.1 := by
    intro x hx
    rcases List.mem_iff_get.mp hx with ⟨⟨j, hj⟩, rfl⟩
    have hj2 : i + 1 + j < l.length := by
      rw [List.length_drop] at hj
      omega
    have hget : (l.drop (i + 1)).get ⟨j, hj⟩ = l.get ⟨i + 1 + j, hj2⟩ := by
      rw [List.get_drop']
    rw [hget]
    exact hq ▸ pairwise_rel_get hs hi hj2 (by omega)
  show l.filter (fun p => decide (p.1 = q)) = _
  conv_lhs => rw [← List.take_append_drop i l, List.drop_eq_getElem_cons hi]
  rw [List.filter_append, List.filter_cons]
  rw [if_pos (by simp only [decide_eq_true_eq]; exact hq)]
  rw [List.filter_eq_nil_iff.mpr
      (fun x hx => by
        simp only [decide_eq_true_eq]
        exact ne_of_lt (hmem1 x hx)),
    List.filter_eq_nil_iff.mpr
      (fun x hx => by
        simp only [decide_eq_true_eq]
        exact ne_of_gt (hmem2 x hx)),
    List.nil_append]
  simp [List.get_eq_getElem]

/-- Accumulating a list with a skip guard equals the sum of the mapped
kept elements. -/
theorem foldl_skip {α : Type} (P : α → Prop) [DecidablePred P] (g : α → ℝ) :
    ∀ (l : List α) (a : ℝ),
      l.foldl (fun vp x => if P x then vp else vp + g x) a
        = a + ((l.filter (fun x => decide (¬ P x))).map g).sum := by
  intro l
  induction l with
  | nil => intro a; simp
  | cons x t ih =>
    intro a
    by_cases h : P x
    · simp only [List.foldl_cons, if_pos h, List.filter_cons]
      rw [if_neg (by simp [h]), ih]
    · simp only [List.foldl_cons, if_neg h, List.filter_cons]
      rw [if_pos (by simp [h]), ih]
      simp [add_assoc]

/-! ### Claim theorems -/

/-- C1: for a curve of at least two points sorted strictly ascending by
date with positive discount factors, any valuation date, and a query date
strictly between the adjacent curve dates at positions `i` and `i+1`
(hence equal to no curve date and strictly inside the curve range),
`interpolar_factor_descuento` selects those two rows as `(t1, df1)` and
`(t2, df2)` and returns
`exp(ln df1 + (ln df2 - ln df1) * (T - T1) / (T2 - T1))` with
year-fractions computed from the valuation date by
`(date - valuation_date).days / 365.0`. -/
theorem c1_interpolacion_interior (l : Curva) (q v : ℤ)
    (hs : l.Pairwise (fun a b => a.1 < b.1))
    (_hpos : ∀ p ∈ l, 0 < p.2)
    (i : ℕ) (hi : i + 1 < l.length)
    (h1 : (l.get ⟨i, Nat.lt_of_succ_lt hi⟩).1 < q)
    (h2 : q < (l.get ⟨i + 1, hi⟩).1) :
    interpolar_factor_descuento q l v =
      Real.exp (Real.log (l.get ⟨i, Nat.lt_of_succ_lt hi⟩).2
        + (Real.log (l.get ⟨i + 1, hi⟩).2
            - Real.log (l.get ⟨i, Nat.lt_of_succ_lt hi⟩).2)
          * (((q - v : ℤ) : ℝ) / 365
             - (((l.get ⟨i, Nat.lt_of_succ_lt hi⟩).1 - v : ℤ) : ℝ) / 365)
          / ((((l.get ⟨i + 1, hi⟩).1 - v : ℤ) : ℝ) / 365
             - (((l.get ⟨i, Nat.lt_of_succ_lt hi⟩).1 - v : ℤ) : ℝ) / 365)) :=
  interpolar_interior l q v hs i hi h1 h2

/-- Witness for C1 on the concrete curve [(0, 1), (2, 1/2)] with query
date 1 and valuation date 0: the interpolated factor is
`exp(ln(1/2) / 2)`. -/
theorem c1_interpolacion_interior_witness :
    interpolar_factor_descuento 1 [((0 : ℤ), (1 : ℝ)), ((2 : ℤ), (1 / 2 : ℝ))] 0
      = Real.exp (Real.log (1 / 2) / 2) := by
  have h := c1_interpolacion_interior
    [((0 : ℤ), (1 : ℝ)), ((2 : ℤ), (1 / 2 : ℝ))] 1 0
    (by norm_num [List.pairwise_cons])
    (by
      intro p hp
      simp only [List.mem_cons, List.not_mem_nil, or_false] at hp
      rcases hp with rfl | rfl <;> norm_num)
    0 (by norm_num) (by norm_num) (by norm_num)
  rw [h]
  norm_num [Real.log_one]
  ring_nf

/-- C10: the interpolated factor does not depend on the valuation date:
the exact-match and flat-extrapolation branches never read it, and on the
interior branch the valuation date cancels out of the interpolation
weight, so any two calls differing only in the valuation date agree. -/
theorem c10_independiente_de_fecha_valoracion (q : ℤ) (l : Curva) (v1 v2 : ℤ) :
    interpolar_factor_descuento q l v1 = interpolar_factor_descuento q l v2 := by
  simp only [interpolar_factor_descuento]
  split_ifs with h1 h2 h3 <;>
    first
      | rfl
      | exact congr_arg Real.exp (loglinear_indep _ _ _ _ _ v1 v2)

/-- C2: on a strictly date-sorted curve with positive factors, the
interpolator returns the stored factor unchanged on an exact date match,
the first factor when the query precedes every curve date, the last
factor when it follows every curve date, and on a single-point curve the
stored factor for every query date. -/
theorem c2_coincidencia_y_bordes (l : Curva) (q v : ℤ)
    (hs : l.Pairwise (fun a b => a.1 < b.1))
    (_hpos : ∀ p ∈ l, 0 < p.2) :
    (∀ (i : ℕ) (hi : i < l.length), (l.get ⟨i, hi⟩).1 = q →
        interpolar_factor_descuento q l v = (l.get ⟨i, hi⟩).2) ∧
    ((∀ p ∈ l, q < p.1) → interpolar_factor_descuento q l v = l.headI.2) ∧
    ((∀ p ∈ l, p.1 < q) →
        interpolar_factor_descuento q l v = (l.getLastD (0, 0)).2) ∧
    (∀ (d : ℤ) (f : ℝ), l = [(d, f)] →
        interpolar_factor_descuento q l v = f) := by
  refine ⟨?_, ?_, ?_, ?_⟩
  · intro i hi hq
    simp only [interpolar_factor_descuento, coincidencia_of_sorted l q hs i hi hq]
    rw [if_pos (by simp)]
    rfl
  · intro hq
    have hex : coincidencia l q = [] := by
      show l.filter _ = []
      exact List.filter_eq_nil_iff.mpr (fun x hx => by
        simp only [decide_eq_true_eq]
        exact ne_of_gt (hq x hx))
    have hant : puntos_anteriores l q = [] := by
      show l.filter _ = []
      exact List.filter_eq_nil_iff.mpr (fun x hx => by
        simp only [decide_eq_true_eq, not_lt]
        exact (hq x hx).le)
    simp only [interpolar_factor_descuento, hex, hant]
    rw [if_neg (by simp), if_pos (by simp)]
  · intro hq
    have hex : coincidencia l q = [] := by
      show l.filter _ = []
      exact List.filter_eq_nil_iff.mpr (fun x hx => by
        simp only [decide_eq_true_eq]
        exact ne_of_lt (hq x hx))
    rcases eq_or_ne l [] with rfl | hne
    · simp only [interpolar_factor_descuento, coincidencia, puntos_anteriores,
        List.filter_nil]
      rfl
    · have hant : puntos_anteriores l q = l := by
        show l.filter _ = l
        exact List.filter_eq_self.mpr (fun x hx => by
          simp only [decide_eq_true_eq]
          exact hq x hx)
      have hpost : puntos_posteriores l q = [] := by
        show l.filter _ = []
        exact List.filter_eq_nil_iff.mpr (fun x hx => by
          simp only [decide_eq_true_eq, not_lt]
          exact (hq x hx).le)
      simp only [interpolar_factor_descuento, hex, hant, hpost]
      rw [if_neg (by simp), if_neg (by simp [List.isEmpty_iff, hne]),
        if_pos (by simp)]
  · rintro d f rfl
    by_cases hdq : d = q
    · subst hdq
      have hco : coincidencia [(d, f)] d = [(d, f)] := by
        show List.filter _ _ = _
        simp
      simp only [interpolar_factor_descuento, hco]
      rw [if_pos (by simp)]
      rfl
    · rcases lt_or_gt_of_ne hdq with hlt | hgt
      · have hex : coincidencia [(d, f)] q = [] := by
          show List.filter _ _ = []
          simp [hdq]
        have hant : puntos_anteriores [(d, f)] q = [(d, f)] := by
          show List.filter _ _ = _
          simp [hlt]
        have hpost : puntos_posteriores [(d, f)] q = [] := by
          show List.filter _ _ = []
          simp [not_lt.mpr hlt.le]
        simp only [interpolar_factor_descuento, hex, hant, hpost]
        rw [if_neg (by simp), if_neg (by simp), if_pos (by simp)]
        rfl
      · have hex : coincidencia [(d, f)] q = [] := by
          show List.filter _ _ = []
          simp [hdq]
        have hant : puntos_anteriores [(d, f)] q = [] := by
          show List.filter _ _ = []
          simp [not_lt.mpr hgt.le]
        simp only [interpolar_factor_descuento, hex, hant]
        rw [if_neg (by simp), if_pos (by simp)]
        rfl

/-- Witness for C2 on the concrete sorted positive curve
[(3, 5), (9, 4)]: an exact match at date 9 returns the stored factor 4
unchanged. -/
theorem c2_coincidencia_y_bordes_witness :
    interpolar_factor_descuento 9 [((3 : ℤ), (5 : ℝ)), ((9 : ℤ), (4 : ℝ))] 0 = 4 := by
  have h := (c2_coincidencia_y_bordes
      [((3 : ℤ), (5 : ℝ)), ((9 : ℤ), (4 : ℝ))] 9 0
      (by norm_num [List.pairwise_cons])
      (by
        intro p hp
        simp only [List.mem_cons, List.not_mem_nil, or_false] at hp
        rcases hp with rfl | rfl <;> norm_num)).1 1 (by norm_num) (by norm_num)
  simpa using h

/-- C8: whenever the interior-interpolation branch is reached on a
strictly date-sorted curve (no exact match, some row strictly before and
some strictly after the query), the selected dates satisfy `t1 < t2`,
the denominator `T2 - T1` is at least `1/365` and nonzero, and the
returned value is the log-linear formula, whose division is therefore
never a division by zero. -/
theorem c8_intervalo_no_degenerado (l : Curva) (q v : ℤ)
    (_hs : l.Pairwise (fun a b => a.1 < b.1))
    (hex : coincidencia l q = [])
    (hant : puntos_anteriores l q ≠ [])
    (hpost : puntos_posteriores l q ≠ []) :
    ((puntos_anteriores l q).getLastD (0, 0)).1
        < ((puntos_posteriores l q).headI).1 ∧
    (1 : ℝ) / 365 ≤ ((((puntos_posteriores l q).headI).1 - v : ℤ) : ℝ) / 365
        - ((((puntos_anteriores l q).getLastD (0, 0)).1 - v : ℤ) : ℝ) / 365 ∧
    ((((puntos_posteriores l q).headI).1 - v : ℤ) : ℝ) / 365
        - ((((puntos_anteriores l q).getLastD (0, 0)).1 - v : ℤ) : ℝ) / 365 ≠ 0 ∧
    interpolar_factor_descuento q l v =
      Real.exp (Real.log ((puntos_anteriores l q).getLastD (0, 0)).2
        + (Real.log ((puntos_posteriores l q).headI).2
            - Real.log ((puntos_anteriores l q).getLastD (0, 0)).2)
          * (((q - v : ℤ) : ℝ) / 365
             - ((((puntos_anteriores l q).getLastD (0, 0)).1 - v : ℤ) : ℝ) / 365)
          / (((((puntos_posteriores l q).headI).1 - v : ℤ) : ℝ) / 365
             - ((((puntos_anteriores l q).getLastD (0, 0)).1 - v : ℤ) : ℝ) / 365)) := by
  have ht1 : ((puntos_anteriores l q).getLastD (0, 0)).1 < q := by
    have hmem := getLastD_mem _ (0, 0) hant
    have hdec := List.of_mem_filter hmem
    simpa using hdec
  have ht2 : q < ((puntos_posteriores l q).headI).1 := by
    have hmem := headI_mem hpost
    have hdec := List.of_mem_filter hmem
    simpa using hdec
  have hlt : ((puntos_anteriores l q).getLastD (0, 0)).1
      < ((puntos_posteriores l q).headI).1 := ht1.trans ht2
  have hone : (1 : ℤ) ≤ ((puntos_posteriores l q).headI).1
      - ((puntos_anteriores l q).getLastD (0, 0)).1 := by omega
  have honeR : (1 : ℝ) ≤ ((((puntos_posteriores l q).headI).1
      - ((puntos_anteriores l q).getLastD (0, 0)).1 : ℤ) : ℝ) := by
    exact_mod_cast hone
  refine ⟨hlt, ?_, ?_, ?_⟩
  · rw [div365_sub]
    linarith
  · rw [div365_sub]
    exact ne_of_gt (div_pos (by linarith) (by norm_num))
  · simp only [interpolar_factor_descuento, hex]
    rw [if_neg (by simp)]
    rw [if_neg (by simp [List.isEmpty_iff, hant])]
    rw [if_neg (by simp [List.isEmpty_iff, hpost])]

/-- Witness for C8 on the curve [(0, 1), (2, 1)] with query date 1: the
selected pivot dates satisfy 0 < 2 and the denominator is nonzero. -/
theorem c8_intervalo_no_degenerado_witness :
    ((puntos_anteriores [((0 : ℤ), (1 : ℝ)), ((2 : ℤ), (1 : ℝ))] 1).getLastD (0, 0)).1
        < ((puntos_posteriores [((0 : ℤ), (1 : ℝ)), ((2 : ℤ), (1 : ℝ))] 1).headI).1 ∧
    ((((puntos_posteriores [((0 : ℤ), (1 : ℝ)), ((2 : ℤ), (1 : ℝ))] 1).headI).1
          - 0 : ℤ) : ℝ) / 365
        - ((((puntos_anteriores [((0 : ℤ), (1 : ℝ)), ((2 : ℤ), (1 : ℝ))] 1).getLastD
              (0, 0)).1 - 0 : ℤ) : ℝ) / 365 ≠ 0 := by
  have h := c8_intervalo_no_degenerado
    [((0 : ℤ), (1 : ℝ)), ((2 : ℤ), (1 : ℝ))] 1 0
    (by norm_num [List.pairwise_cons])
    rfl
    (by
      rw [show puntos_anteriores [((0 : ℤ), (1 : ℝ)), ((2 : ℤ), (1 : ℝ))] 1
          = [((0 : ℤ), (1 : ℝ))] from rfl]
      exact List.cons_ne_nil _ _)
    (by
      rw [show puntos_posteriores [((0 : ℤ), (1 : ℝ)), ((2 : ℤ), (1 : ℝ))] 1
          = [((2 : ℤ), (1 : ℝ))] from rfl]
      exact List.cons_ne_nil _ _)
  exact ⟨h.1, h.2.2.1⟩

/-- C9: on a strictly date-sorted curve with positive, strictly
decreasing factors, the interpolated factor at any query date strictly
between the adjacent pivots at positions `i` and `i+1` lies strictly
between the factors of those two pivots, and it is strictly decreasing
in the query date across that interval. -/
theorem c9_interpolacion_monotona (l : Curva) (v : ℤ)
    (hs : l.Pairwise (fun a b => a.1 < b.1))
    (hdec : l.Pairwise (fun a b => b.2 < a.2))
    (hpos : ∀ p ∈ l, 0 < p.2)
    (i : ℕ) (hi : i + 1 < l.length) :
    (∀ q : ℤ, (l.get ⟨i, Nat.lt_of_succ_lt hi⟩).1 < q →
        q < (l.get ⟨i + 1, hi⟩).1 →
        (l.get ⟨i + 1, hi⟩).2 < interpolar_factor_descuento q l v ∧
          interpolar_factor_descuento q l v
            < (l.get ⟨i, Nat.lt_of_succ_lt hi⟩).2) ∧
    (∀ q1 q2 : ℤ, (l.get ⟨i, Nat.lt_of_succ_lt hi⟩).1 < q1 → q1 < q2 →
        q2 < (l.get ⟨i + 1, hi⟩).1 →
        interpolar_factor_descuento q2 l v
          < interpolar_factor_descuento q1 l v) := by
  have hp1 : 0 < (l.get ⟨i, Nat.lt_of_succ_lt hi⟩).2 :=
    hpos _ (List.get_mem l i (Nat.lt_of_succ_lt hi))
  have hp2 : 0 < (l.get ⟨i + 1, hi⟩).2 := hpos _ (List.get_mem l (i + 1) hi)
  have hd : (l.get ⟨i + 1, hi⟩).2 < (l.get ⟨i, Nat.lt_of_succ_lt hi⟩).2 :=
    pairwise_rel_get hdec (Nat.lt_of_succ_lt hi) hi (Nat.lt_succ_self i)
  have hL : Real.log (l.get ⟨i + 1, hi⟩).2
      < Real.log (l.get ⟨i, Nat.lt_of_succ_lt hi⟩).2 := Real.log_lt_log hp2 hd
  have hval : ∀ q : ℤ, (l.get ⟨i, Nat.lt_of_succ_lt hi⟩).1 < q →
      q < (l.get ⟨i + 1, hi⟩).1 →
      interpolar_factor_descuento q l v =
        Real.exp (Real.log (l.get ⟨i, Nat.lt_of_succ_lt hi⟩).2
          + (Real.log (l.get ⟨i + 1, hi⟩).2
              - Real.log (l.get ⟨i, Nat.lt_of_succ_lt hi⟩).2)
            * ((q - (l.get ⟨i, Nat.lt_of_succ_lt hi⟩).1 : ℤ) : ℝ)
            / (((l.get ⟨i + 1, hi⟩).1
                - (l.get ⟨i, Nat.lt_of_succ_lt hi⟩).1 : ℤ) : ℝ)) := by
    intro q hq1 hq2
    rw [interpolar_interior l q v hs i hi hq1 hq2, div365_sub, div365_sub,
      weight_cancel]
  constructor
  · intro q hq1 hq2
    rw [hval q hq1 hq2]
    have hDq : (0 : ℝ) < ((q - (l.get ⟨i, Nat.lt_of_succ_lt hi⟩).1 : ℤ) : ℝ) := by
      exact_mod_cast sub_pos.mpr hq1
    have hDD : ((q - (l.get ⟨i, Nat.lt_of_succ_lt hi⟩).1 : ℤ) : ℝ)
        < (((l.get ⟨i + 1, hi⟩).1 - (l.get ⟨i, Nat.lt_of_succ_lt hi⟩).1 : ℤ) : ℝ) := by
      exact_mod_cast sub_lt_sub_right hq2 _
    obtain ⟨hlo, hhi⟩ := loglinear_bounds _ _ _ _ hL hDq hDD
    constructor
    · have h := Real.exp_lt_exp.mpr hlo
      rwa [Real.exp_log hp2] at h
    · have h := Real.exp_lt_exp.mpr hhi
      rwa [Real.exp_log hp1] at h
  · intro q1 q2 h1 h12 h2
    rw [hval q1 h1 (h12.trans h2), hval q2 (h1.trans h12) h2]
    apply Real.exp_lt_exp.mpr
    have hD : (0 : ℝ)
        < (((l.get ⟨i + 1, hi⟩).1 - (l.get ⟨i, Nat.lt_of_succ_lt hi⟩).1 : ℤ) : ℝ) := by
      exact_mod_cast sub_pos.mpr ((h1.trans h12).trans h2)
    have h12R : ((q1 - (l.get ⟨i, Nat.lt_of_succ_lt hi⟩).1 : ℤ) : ℝ)
        < ((q2 - (l.get ⟨i, Nat.lt_of_succ_lt hi⟩).1 : ℤ) : ℝ) := by
      exact_mod_cast sub_lt_sub_right h12 _
    exact loglinear_mono _ _ _ _ _ hL hD h12R

/-- Witness for C9 on the curve [(0, 1), (10, 1/2)] with valuation date
0 and query date 5: the interpolated factor lies strictly between 1/2
and 1. -/
theorem c9_interpolacion_monotona_witness :
    (1 : ℝ) / 2
        < interpolar_factor_descuento 5 [((0 : ℤ), (1 : ℝ)), ((10 : ℤ), (1 / 2 : ℝ))] 0 ∧
      interpolar_factor_descuento 5 [((0 : ℤ), (1 : ℝ)), ((10 : ℤ), (1 / 2 : ℝ))] 0 < 1 := by
  have h := (c9_interpolacion_monotona
      [((0 : ℤ), (1 : ℝ)), ((10 : ℤ), (1 / 2 : ℝ))] 0
      (by norm_num [List.pairwise_cons])
      (by norm_num [List.pairwise_cons])
      (by
        intro p hp
        simp only [List.mem_cons, List.not_mem_nil, or_false] at hp
        rcases hp with rfl | rfl <;> norm_num)
      0 (by norm_num)).1 5 (by norm_num) (by norm_num)
  simpa using h

/-- The two enum member values are distinct. -/
theorem yield_ne_curva : MetodoDescuento.YIELD ≠ MetodoDescuento.CURVA := by
  decide

/-- Closed form of the CURVA branch: the loop accumulates exactly the
flows dated on or after the valuation date, each discounted by the
interpolated curve factor times the continuous-compounding credit-spread
factor. -/
theorem calcular_curva_eq (flujos : List (ℤ × ℝ)) (curva : Curva) (fv : ℤ)
    (spread : ℝ) (y : Option ℝ) (freq : ℤ) :
    calcular_valor_presente (.fechas flujos) (some fv) MetodoDescuento.CURVA
        (some curva) spread y freq
      = Except.ok (((flujos.filter (fun p => decide (fv ≤ p.1))).map
          (fun p => p.2 * (interpolar_factor_descuento p.1 curva fv
            * Real.exp (-spread * (((p.1 - fv : ℤ) : ℝ) / 365))))).sum) := by
  simp only [calcular_valor_presente]
  rw [if_pos trivial]
  rw [foldl_skip (fun p : ℤ × ℝ => p.1 < fv) _ flujos 0]
  rw [show (fun x : ℤ × ℝ => decide (¬ x.1 < fv))
      = (fun x : ℤ × ℝ => decide (fv ≤ x.1)) from
    funext (fun x => decide_eq_decide.mpr not_lt)]
  rw [zero_add]

/-- Closed form of the YIELD branch on date-shaped flows. -/
theorem calcular_yield_fechas_eq (flujos : List (ℤ × ℝ)) (fv : ℤ)
    (dfc : Option Curva) (spread : ℝ) (y : ℝ) (freq : ℤ) :
    calcular_valor_presente (.fechas flujos) (some fv) MetodoDescuento.YIELD
        dfc spread (some y) freq
      = Except.ok (((flujos.filter (fun p => decide (fv ≤ p.1))).map
          (fun p => p.2 / Real.rpow (1 + y / (freq : ℝ))
            ((((p.1 - fv : ℤ) : ℝ) / 365) * (freq : ℝ)))).sum) := by
  simp only [calcular_valor_presente]
  rw [if_neg yield_ne_curva, if_pos trivial]
  rw [foldl_skip (fun p : ℤ × ℝ => p.1 < fv) _ flujos 0]
  rw [show (fun x : ℤ × ℝ => decide (¬ x.1 < fv))
      = (fun x : ℤ × ℝ => decide (fv ≤ x.1)) from
    funext (fun x => decide_eq_decide.mpr not_lt)]
  rw [zero_add]

/-- Closed form of the YIELD branch on time-shaped flows. -/
theorem calcular_yield_tiempos_eq (flujos : List (ℝ × ℝ))
    (fvo : Option ℤ) (dfc : Option Curva) (spread : ℝ) (y : ℝ) (freq : ℤ) :
    calcular_valor_presente (.tiempos flujos) fvo MetodoDescuento.YIELD
        dfc spread (some y) freq
      = Except.ok (((flujos.filter (fun p => decide (0 < p.1))).map
          (fun p => p.2 / Real.rpow (1 + y / (freq : ℝ))
            (p.1 * (freq : ℝ)))).sum) := by
  simp only [calcular_valor_presente]
  rw [if_neg yield_ne_curva, if_pos trivial]
  rw [foldl_skip (fun p : ℝ × ℝ => p.1 ≤ 0) _ flujos 0]
  rw [show (fun x : ℝ × ℝ => decide (¬ x.1 ≤ 0))
      = (fun x : ℝ × ℝ => decide (0 < x.1)) from
    funext (fun x => decide_eq_decide.mpr not_le)]
  rw [zero_add]

/-- C3: with method CURVE, date-shaped flows and a valuation date,
`calcular_valor_presente` returns the sum over the flows dated on or
after the valuation date of
`amount * (DF_curve * exp(-spread * T))` with
`T = (date - valuation_date).days / 365.0` and `DF_curve` obtained from
`interpolar_factor_descuento`; flows dated strictly before the valuation
date are not accumulated. -/
theorem c3_valor_presente_curva (flujos : List (ℤ × ℝ)) (curva : Curva)
    (fv : ℤ) (spread : ℝ) (y : Option ℝ) (freq : ℤ) :
    calcular_valor_presente (.fechas flujos) (some fv) MetodoDescuento.CURVA
        (some curva) spread y freq
      = Except.ok (((flujos.filter (fun p => decide (fv ≤ p.1))).map
          (fun p => p.2 * (interpolar_factor_descuento p.1 curva fv
            * Real.exp (-spread * (((p.1 - fv : ℤ) : ℝ) / 365))))).sum) :=
  calcular_curva_eq flujos curva fv spread y freq

/-- C4: with method YIELD and annual yield `y` at frequency `freq`,
date-shaped flows give the sum over flows dated on or after the
valuation date of `amount / (1 + y/freq)^(T * freq)` with
`T = (date - valuation_date).days / 365.0`, and time-shaped flows give
the sum over flows with time offset strictly greater than 0 of
`amount / (1 + y/freq)^(T * freq)` using the supplied offset directly. -/
theorem c4_valor_presente_yield (flujos_f : List (ℤ × ℝ))
    (flujos_t : List (ℝ × ℝ)) (fv : ℤ) (fvo : Option ℤ) (dfc : Option Curva)
    (spread : ℝ) (y : ℝ) (freq : ℤ) :
    (calcular_valor_presente (.fechas flujos_f) (some fv) MetodoDescuento.YIELD
        dfc spread (some y) freq
      = Except.ok (((flujos_f.filter (fun p => decide (fv ≤ p.1))).map
          (fun p => p.2 / Real.rpow (1 + y / (freq : ℝ))
            ((((p.1 - fv : ℤ) : ℝ) / 365) * (freq : ℝ)))).sum)) ∧
    (calcular_valor_presente (.tiempos flujos_t) fvo MetodoDescuento.YIELD
        dfc spread (some y) freq
      = Except.ok (((flujos_t.filter (fun p => decide (0 < p.1))).map
          (fun p => p.2 / Real.rpow (1 + y / (freq : ℝ))
            (p.1 * (freq : ℝ)))).sum)) :=
  ⟨calcular_yield_fechas_eq flujos_f fv dfc spread y freq,
   calcular_yield_tiempos_eq flujos_t fvo dfc spread y freq⟩

/-- C5: a flow dated strictly before the valuation date (CURVE mode or
date-shaped YIELD mode), or with time offset at most 0 (time-shaped
YIELD mode), contributes exactly zero to the present value whatever its
amount; and the cutoffs are asymmetric: a date-shaped flow dated exactly
on the valuation date is kept and discounted with `T = 0` (so it
contributes its full amount), while a time-shaped flow with `T = 0` is
excluded. -/
theorem c5_exclusion_flujos_pasados
    (l1 l2 : List (ℤ × ℝ)) (t1 t2 : List (ℝ × ℝ)) (d fv : ℤ) (m : ℝ)
    (curva : Curva) (dfc : Option Curva) (spread : ℝ) (y : ℝ) (yo : Option ℝ)
    (freq : ℤ) (fvo : Option ℤ) (T : ℝ) :
    (d < fv →
      calcular_valor_presente (.fechas (l1 ++ (d, m) :: l2)) (some fv)
          MetodoDescuento.CURVA (some curva) spread yo freq
        = calcular_valor_presente (.fechas (l1 ++ l2)) (some fv)
          MetodoDescuento.CURVA (some curva) spread yo freq) ∧
    (d < fv →
      calcular_valor_presente (.fechas (l1 ++ (d, m) :: l2)) (some fv)
          MetodoDescuento.YIELD dfc spread (some y) freq
        = calcular_valor_presente (.fechas (l1 ++ l2)) (some fv)
          MetodoDescuento.YIELD dfc spread (some y) freq) ∧
    (T ≤ 0 →
      calcular_valor_presente (.tiempos (t1 ++ (T, m) :: t2)) fvo
          MetodoDescuento.YIELD dfc spread (some y) freq
        = calcular_valor_presente (.tiempos (t1 ++ t2)) fvo
          MetodoDescuento.YIELD dfc spread (some y) freq) ∧
    (calcular_valor_presente (.fechas [(fv, m)]) (some fv)
        MetodoDescuento.YIELD dfc spread (some y) freq = Except.ok m) ∧
    (calcular_valor_presente (.tiempos [(0, m)]) fvo
        MetodoDescuento.YIELD dfc spread (some y) freq = Except.ok 0) := by
  refine ⟨?_, ?_, ?_, ?_, ?_⟩
  · intro hd
    rw [calcular_curva_eq, calcular_curva_eq, List.filter_append,
      List.filter_append, List.filter_cons,
      if_neg (by simp only [decide_eq_true_eq]; exact not_le.mpr hd)]
  · intro hd
    rw [calcular_yield_fechas_eq, calcular_yield_fechas_eq, List.filter_append,
      List.filter_append, List.filter_cons,
      if_neg (by simp only [decide_eq_true_eq]; exact not_le.mpr hd)]
  · intro hT
    rw [calcular_yield_tiempos_eq, calcular_yield_tiempos_eq, List.filter_append,
      List.filter_append, List.filter_cons,
      if_neg (by simp only [decide_eq_true_eq]; exact not_lt.mpr hT)]
  · rw [calcular_yield_fechas_eq]
    simp only [List.filter_cons, List.filter_nil]
    rw [if_pos (by simp)]
    simp [sub_self, Real.rpow_zero]
  · rw [calcular_yield_tiempos_eq]
    simp

/-- Witness for C5: a flow dated strictly before the valuation date is
dropped, so the schedule [(0, 42)] under valuation date 1 values the
same as the empty schedule. -/
theorem c5_exclusion_flujos_pasados_witness :
    calcular_valor_presente (.fechas [((0 : ℤ), (42 : ℝ))]) (some 1)
        MetodoDescuento.CURVA (some [((1 : ℤ), (1 : ℝ))]) 0 none 2
      = calcular_valor_presente (.fechas []) (some 1)
        MetodoDescuento.CURVA (some [((1 : ℤ), (1 : ℝ))]) 0 none 2 :=
  (c5_exclusion_flujos_pasados [] [] [] [] 0 1 42 [((1 : ℤ), (1 : ℝ))] none 0 0
      none 2 none 0).1 (by norm_num)

/-- C6 counterexample: 2024 is a leap year, so the day count the code
computes from 2024-01-01 to 2025-01-01 is 366, and the Actual/365
year-fraction is 366/365, not 1.0 as the claim asserts for this
scenario. -/
theorem c6_escenario_yield_contraejemplo :
    Fecha.toOrdinal ⟨2025, 1, 1⟩ - Fecha.toOrdinal ⟨2024, 1, 1⟩ = 366 ∧
    ¬ (((Fecha.toOrdinal ⟨2025, 1, 1⟩ - Fecha.toOrdinal ⟨2024, 1, 1⟩ : ℤ) : ℝ)
        / 365 = 1) := by
  constructor
  · decide
  · rw [show Fecha.toOrdinal ⟨2025, 1, 1⟩ - Fecha.toOrdinal ⟨2024, 1, 1⟩ = 366
        from by decide]
    norm_num

/-- C6 (amended): for the single date-shaped flow (2025-01-01, 1000)
under method YIELD with annual yield 0.04, frequency 2 and valuation
date 2024-01-01, the year-fraction is T = 366/365 (2024 is a leap year)
and the function returns exactly
`1000 / (1 + 0.04/2) ^ ((366/365) * 2)`, which is about 961.06. -/
theorem c6_escenario_yield :
    calcular_valor_presente
        (.fechas [(Fecha.toOrdinal ⟨2025, 1, 1⟩, 1000)])
        (some (Fecha.toOrdinal ⟨2024, 1, 1⟩))
        MetodoDescuento.YIELD none 0 (some 0.04) 2
      = Except.ok (1000 / Real.rpow (1 + 0.04 / 2) ((366 / 365) * 2)) := by
  rw [calcular_yield_fechas_eq]
  simp only [List.filter_cons, List.filter_nil]
  rw [if_pos (by decide)]
  simp only [List.map_cons, List.map_nil, List.sum_cons, List.sum_nil, add_zero]
  rw [show Fecha.toOrdinal ⟨2025, 1, 1⟩ - Fecha.toOrdinal ⟨2024, 1, 1⟩ = 366
      from by decide]
  norm_num

/-- C7: `calcular_valor_presente` fails with an error, before processing
any flow, when: the method is CURVE and the curve is missing, or the
flows are not date-shaped, or the valuation date is missing; the method
is YIELD and the annual yield is missing, or the flows are date-shaped
and the valuation date is missing; or the method selector matches no
recognized variant. -/
theorem c7_validacion_parametros :
    (∀ (fl : Flujos) (fvo : Option ℤ) (spread : ℝ) (yo : Option ℝ) (freq : ℤ),
      calcular_valor_presente fl fvo MetodoDescuento.CURVA none spread yo freq
        = Except.error "Se requiere df_curva para el metodo CURVA") ∧
    (∀ (tl : List (ℝ × ℝ)) (fvo : Option ℤ) (curva : Curva) (spread : ℝ)
        (yo : Option ℝ) (freq : ℤ),
      calcular_valor_presente (.tiempos tl) fvo MetodoDescuento.CURVA
          (some curva) spread yo freq
        = Except.error "El metodo CURVA requiere flujos_como_fechas=True") ∧
    (∀ (fl : List (ℤ × ℝ)) (curva : Curva) (spread : ℝ) (yo : Option ℝ)
        (freq : ℤ),
      calcular_valor_presente (.fechas fl) none MetodoDescuento.CURVA
          (some curva) spread yo freq
        = Except.error "Se requiere fecha_valoracion para el metodo CURVA") ∧
    (∀ (fl : Flujos) (fvo : Option ℤ) (dfc : Option Curva) (spread : ℝ)
        (freq : ℤ),
      calcular_valor_presente fl fvo MetodoDescuento.YIELD dfc spread none freq
        = Except.error "Se requiere yield_anual para el metodo YIELD") ∧
    (∀ (fl : List (ℤ × ℝ)) (dfc : Option Curva) (spread : ℝ) (y : ℝ) (freq : ℤ),
      calcular_valor_presente (.fechas fl) none MetodoDescuento.YIELD dfc
          spread (some y) freq
        = Except.error
            "Se requiere fecha_valoracion cuando flujos_como_fechas=True") ∧
    (∀ m : MetodoDescuento, m ≠ MetodoDescuento.CURVA →
      m ≠ MetodoDescuento.YIELD →
      ∀ (fl : Flujos) (fvo : Option ℤ) (dfc : Option Curva) (spread : ℝ)
        (yo : Option ℝ) (freq : ℤ),
      calcular_valor_presente fl fvo m dfc spread yo freq
        = Except.error ("Metodo de descuento no reconocido: " ++ m)) := by
  refine ⟨?_, ?_, ?_, ?_, ?_, ?_⟩
  · intro fl fvo spread yo freq
    simp only [calcular_valor_presente]
    rw [if_pos trivial]
  · intro tl fvo curva spread yo freq
    simp only [calcular_valor_presente]
    rw [if_pos trivial]
  · intro fl curva spread yo freq
    simp only [calcular_valor_presente]
    rw [if_pos trivial]
  · intro fl fvo dfc spread freq
    simp only [calcular_valor_presente]
    rw [if_neg yield_ne_curva, if_pos trivial]
  · intro fl dfc spread y freq
    simp only [calcular_valor_presente]
    rw [if_neg yield_ne_curva, if_pos trivial]
  · intro m hm1 hm2 fl fvo dfc spread yo freq
    simp only [calcular_valor_presente]
    rw [if_neg hm1, if_neg hm2]

/-- Witness for C7: the unrecognized method value "tasa" produces the
unrecognized-method error. -/
theorem c7_validacion_parametros_witness :
    calcular_valor_presente (.fechas []) none "tasa" none 0 none 2
      = Except.error ("Metodo de descuento no reconocido: " ++ "tasa") :=
  c7_validacion_parametros.2.2.2.2.2 "tasa" (by decide) (by decide)
    (.fechas []) none none 0 none 2
